import Mathlib

/-!
Verification of the docker-practice HTTP service (`src/index.ts`).

The program is a small Express application with two GET routes serving
constant data, a JSON body-parsing middleware, a `PORT` environment
variable resolved as `process.env.PORT || 5000`, and `app.listen`.
This file gives a shallow embedding of the service and proves the
specified properties about it.

Framework behavior that is not part of the repository's own source
(Express route dispatch, the default not-found response, `res.json`
headers, the JSON body-parsing middleware's tolerance on routes that
ignore the body, and Node's fatal handling of a bind error) is modelled
from the specification; each such definition says so in its doc comment.
-/

/-- A character constant for the left brace, used when rendering JSON. -/
def lbraceChar : Char := Char.ofNat 123

/-- A character constant for the right brace, used when rendering JSON. -/
def rbraceChar : Char := Char.ofNat 125

/-- One product record, as in the object literals of the `/products`
handler in `src/index.ts`: `{ id: 1, name: "Product A", price: 100 }`.
`id` is a natural number and `price` an integer (the source values are
JavaScript number literals with integral values). -/
structure Product where
  id : Nat
  name : String
  price : Int
  deriving Repr, DecidableEq

/-- The fixed product list from the `/products` handler in
`src/index.ts` (lines 23-29), in source order. -/
def products : List Product :=
  [ { id := 1, name := "Product A", price := 100 },
    { id := 2, name := "Product B", price := 150 },
    { id := 3, name := "Product C", price := 200 } ]

/-- JSON values, as produced by the handler's object literal and
serialized by `res.json`. -/
inductive Json where
  | null : Json
  | bool : Bool → Json
  | num : Int → Json
  | str : String → Json
  | arr : List Json → Json
  | obj : List (String × Json) → Json
  deriving Repr

/-- Escape a character the way `JSON.stringify` does for the characters
that can occur in this program's data (quote and backslash; the fixed
product names contain neither, and no control characters occur). -/
def escapeChar (c : Char) : String :=
  if c = '\"' then "\\\"" else if c = '\\' then "\\\\" else String.singleton c

/-- Render a JSON string literal with quotes, as `JSON.stringify` does. -/
def renderString (s : String) : String :=
  "\"" ++ String.join (s.data.map escapeChar) ++ "\""

mutual

/-- Render a JSON value without extra whitespace, matching the output of
`JSON.stringify` on the handler's object (object keys in insertion
order, no spaces). -/
def renderJson : Json → String
  | .null => "null"
  | .bool true => "true"
  | .bool false => "false"
  | .num n => toString n
  | .str s => renderString s
  | .arr xs => "[" ++ renderArr xs ++ "]"
  | .obj fs => String.singleton lbraceChar ++ renderObj fs ++ String.singleton rbraceChar

/-- Render the comma-separated elements of a JSON array. -/
def renderArr : List Json → String
  | [] => ""
  | [x] => renderJson x
  | x :: y :: xs => renderJson x ++ "," ++ renderArr (y :: xs)

/-- Render the comma-separated members of a JSON object. -/
def renderObj : List (String × Json) → String
  | [] => ""
  | [(k, v)] => renderString k ++ ":" ++ renderJson v
  | (k, v) :: f :: fs => renderString k ++ ":" ++ renderJson v ++ "," ++ renderObj (f :: fs)

end

/-- The JSON object built for one product by the `/products` handler:
`{ id: ..., name: ..., price: ... }` with keys in source order. -/
def productJson (p : Product) : Json :=
  .obj [("id", .num p.id), ("name", .str p.name), ("price", .num p.price)]

/-- The JSON object passed to `res.json` by the `/products` handler:
`{ products: [...] }`. -/
def productsJson (ps : List Product) : Json :=
  .obj [("products", .arr (ps.map productJson))]

/-- An HTTP request as far as this service can observe it: method, path
(without the query string), query string, headers, and raw body. -/
structure Request where
  method : String
  path : String
  query : String
  headers : List (String × String)
  body : String
  deriving Repr, DecidableEq

/-- An HTTP response: status code, optional Content-Type header, body. -/
structure Response where
  status : Nat
  contentType : Option String
  body : String
  deriving Repr, DecidableEq

/-- The in-memory state of the running service. Its only datum is the
fixed product list (the program has no other state at all). -/
structure ServerState where
  products : List Product
  deriving Repr, DecidableEq

/-- The state at process start: the hard-coded product list. -/
def initState : ServerState := { products := products }

/-- The `GET /` handler (`src/index.ts` lines 14-16): `res.send` of the
fixed greeting. Status 200 is the Express default for `res.send`; the
specification does not fix a Content-Type for this route, so none is
modelled. -/
def rootHandler (_req : Request) : Response :=
  { status := 200, contentType := none, body := "Hello, World from the Dockerize App!" }

/-- The `GET /products` handler (`src/index.ts` lines 22-30): `res.json`
of the product object. Modelled from the spec: `res.json` responds with
status 200, `Content-Type: application/json`, and the serialized body. -/
def productsHandler (st : ServerState) (_req : Request) : Response :=
  { status := 200,
    contentType := some "application/json",
    body := renderJson (productsJson st.products) }

/-- Modelled from the spec: the framework's default response for a
request matching no registered route — status 404 with a default body
(the spec fixes only the status class, not the body). -/
def notFoundResponse (req : Request) : Response :=
  { status := 404, contentType := none, body := "Cannot " ++ req.method ++ " " ++ req.path }

/-- One request-response step of the service. Route dispatch is modelled
from the spec: the two registered routes `GET /` and `GET /products`
match on exact method and path, anything else falls through to the
not-found default. Modelled from the spec: the JSON body-parsing
middleware never faults a request on these routes (they ignore the
body), so dispatch always reaches a handler or the not-found default. -/
def serveSt (st : ServerState) (req : Request) : Response × ServerState :=
  if req.method = "GET" ∧ req.path = "/" then (rootHandler req, st)
  else if req.method = "GET" ∧ req.path = "/products" then (productsHandler st req, st)
  else (notFoundResponse req, st)

/-- The response produced for a single request from the start state. -/
def serve (req : Request) : Response :=
  (serveSt initState req).1

/-- Run a sequence of requests, threading the server state through. -/
def runRequests (st : ServerState) (reqs : List Request) : List Response × ServerState :=
  match reqs with
  | [] => ([], st)
  | r :: rs =>
    let p := serveSt st r
    let q := runRequests p.2 rs
    (p.1 :: q.1, q.2)

/-- The value of the `PORT` constant in `src/index.ts` line 5. In the
source it is the union `string | number`: the environment string when
present and truthy, the number literal `5000` otherwise. -/
inductive PortValue where
  | str : String → PortValue
  | num : Nat → PortValue
  deriving Repr, DecidableEq

/-- Resolution of `const PORT = process.env.PORT || 5000`
(`src/index.ts` line 5). `process.env.PORT` is `undefined` when the
variable is absent; `||` takes the right operand exactly when the left
is falsy, and the only falsy string is the empty string. The value is
used verbatim, with no integer parsing or range validation. -/
def resolvePORT (envPort : Option String) : PortValue :=
  match envPort with
  | none => .num 5000
  | some s => if s = "" then .num 5000 else .str s

/-- The service as configured at startup: the `PORT` constant, the
argument passed to `app.listen` (`src/index.ts` line 33, which is the
same `PORT` constant), and the initial in-memory state. -/
structure Server where
  port : PortValue
  listenPort : PortValue
  state : ServerState
  deriving Repr, DecidableEq

/-- Startup of the service from the process environment: resolve `PORT`
and hand it to `app.listen` (`src/index.ts` lines 5 and 33). -/
def startServer (envPort : Option String) : Server :=
  let p := resolvePORT envPort
  { port := p, listenPort := p, state := initState }

/-- The observable outcome of the `app.listen` call: either the service
is serving on the requested port, or the process has terminated with an
exit code and a message on the standard error stream. -/
inductive ListenOutcome where
  | listening : PortValue → ListenOutcome
  | fatal : Nat → String → ListenOutcome
  deriving Repr, DecidableEq

/-- Modelled from the spec: the result of `app.listen(PORT, ...)`
(`src/index.ts` lines 33-35). The callback handles no error, so a bind
failure is fatal: the process terminates with a non-zero exit status
(Node's exit code 1) and the error is surfaced on standard error; on
success the service listens on the resolved port. -/
def listenResult (p : PortValue) (bindError : Option String) : ListenOutcome :=
  match bindError with
  | none => .listening p
  | some msg => .fatal 1 msg

/-- Drop leading JSON whitespace characters. -/
def skipWs : List Char → List Char
  | [] => []
  | c :: cs => if c = ' ' ∨ c = '\t' ∨ c = '\n' ∨ c = '\r' then skipWs cs else c :: cs

/-- Consume the rest of a JSON string literal after its opening quote,
treating any backslash as escaping the next character. Returns the
characters after the closing quote. -/
def jpStr : List Char → Option (List Char)
  | [] => none
  | c :: cs =>
    if c = '\"' then some cs
    else if c = '\\' then
      match cs with
      | [] => none
      | _ :: cs2 => jpStr cs2
    else jpStr cs

/-- Drop leading decimal digits. -/
def dropDigits : List Char → List Char
  | [] => []
  | c :: cs => if c.isDigit then dropDigits cs else c :: cs

/-- Consume a JSON number: optional minus sign, one or more digits, and
an optional fractional part (exponents are not needed for the bodies
considered here). -/
def jpNum (cs : List Char) : Option (List Char) :=
  let cs1 := match cs with
    | '-' :: r => r
    | _ => cs
  match cs1 with
  | [] => none
  | c :: _ =>
    if c.isDigit then
      match dropDigits cs1 with
      | '.' :: r2 =>
        match r2 with
        | [] => none
        | d :: _ => if d.isDigit then some (dropDigits r2) else none
      | r1 => some r1
    else none

mutual

/-- Modelled from the spec: well-formedness of a JSON text, standing in
for the parse performed by the `express.json()` middleware
(`src/index.ts` line 8) on a request body; a body this checker rejects
is a malformed JSON body in the sense of the spec. Consumes one JSON
value and returns the remaining characters. -/
def jpVal : Nat → List Char → Option (List Char)
  | 0, _ => none
  | fuel + 1, cs =>
    match skipWs cs with
    | [] => none
    | c :: rest =>
      if c = 'n' then
        match rest with
        | 'u' :: 'l' :: 'l' :: r => some r
        | _ => none
      else if c = 't' then
        match rest with
        | 'r' :: 'u' :: 'e' :: r => some r
        | _ => none
      else if c = 'f' then
        match rest with
        | 'a' :: 'l' :: 's' :: 'e' :: r => some r
        | _ => none
      else if c = '\"' then jpStr rest
      else if c = '[' then
        match skipWs rest with
        | ']' :: r => some r
        | r => jpElems fuel r
      else if c = lbraceChar then
        match skipWs rest with
        | [] => none
        | d :: r => if d = rbraceChar then some r else jpMembers fuel (d :: r)
      else jpNum (c :: rest)

/-- Consume the remaining elements of a JSON array, starting at the
first element, through the closing bracket. -/
def jpElems : Nat → List Char → Option (List Char)
  | 0, _ => none
  | fuel + 1, cs =>
    match jpVal fuel cs with
    | none => none
    | some r =>
      match skipWs r with
      | ']' :: r2 => some r2
      | ',' :: r2 => jpElems fuel r2
      | _ => none

/-- Consume the remaining members of a JSON object, starting at the
first member's key, through the closing brace. -/
def jpMembers : Nat → List Char → Option (List Char)
  | 0, _ => none
  | fuel + 1, cs =>
    match skipWs cs with
    | [] => none
    | q :: r =>
      if q = '\"' then
        match jpStr r with
        | none => none
        | some r2 =>
          match skipWs r2 with
          | ':' :: r3 =>
            match jpVal fuel r3 with
            | none => none
            | some r4 =>
              match skipWs r4 with
              | [] => none
              | c :: r5 =>
                if c = rbraceChar then some r5
                else if c = ',' then jpMembers fuel r5
                else none
          | _ => none
      else none

end

/-- Whether a request body is a well-formed JSON text: one JSON value,
possibly surrounded by whitespace, spanning the whole body. -/
def isJsonText (s : String) : Bool :=
  match jpVal (s.length + 1) s.data with
  | none => false
  | some r => (skipWs r).isEmpty





/-- A route identifier for the two registered routes of the service. -/
inductive RouteId where
  | rootRoute : RouteId
  | productsRoute : RouteId
  deriving Repr, DecidableEq

/-- The route a request is dispatched to, if any, mirroring the route
matching of `serveSt`. -/
def routeOf (req : Request) : Option RouteId :=
  if req.method = "GET" ∧ req.path = "/" then some RouteId.rootRoute
  else if req.method = "GET" ∧ req.path = "/products" then some RouteId.productsRoute
  else none

theorem serveSt_state (st : ServerState) (r : Request) : (serveSt st r).2 = st := by
  unfold serveSt
  split
  · rfl
  · split
    · rfl
    · rfl

theorem runRequests_state (st : ServerState) (reqs : List Request) :
    (runRequests st reqs).2 = st := by
  induction reqs generalizing st with
  | nil => rfl
  | cons r rs ih =>
    show (runRequests (serveSt st r).2 rs).2 = st
    rw [ih, serveSt_state]

theorem routeOf_root (r : Request) (h : routeOf r = some RouteId.rootRoute) :
    r.method = "GET" ∧ r.path = "/" := by
  unfold routeOf at h
  split at h
  next hc => exact hc
  next =>
    split at h
    · simp at h
    · simp at h

theorem routeOf_products (r : Request) (h : routeOf r = some RouteId.productsRoute) :
    r.method = "GET" ∧ r.path = "/products" := by
  unfold routeOf at h
  split at h
  next => simp at h
  next =>
    split at h
    next hc => exact hc
    next => simp at h

/-- C1: every GET request to `/products` gets status 200, header
`Content-Type: application/json`, and a body that is exactly the JSON
object with the three product records in source order. -/
theorem products_route_exact (req : Request)
    (hm : req.method = "GET") (hp : req.path = "/products") :
    (serve req).status = 200 ∧
    (serve req).contentType = some "application/json" ∧
    (serve req).body =
      "\x7b\"products\":[\x7b\"id\":1,\"name\":\"Product A\",\"price\":100\x7d,\x7b\"id\":2,\"name\":\"Product B\",\"price\":150\x7d,\x7b\"id\":3,\"name\":\"Product C\",\"price\":200\x7d]\x7d" := by
  have h : serve req = productsHandler initState req := by
    simp [serve, serveSt, hm, hp]
  have hb : renderJson (productsJson initState.products) =
      "\x7b\"products\":[\x7b\"id\":1,\"name\":\"Product A\",\"price\":100\x7d,\x7b\"id\":2,\"name\":\"Product B\",\"price\":150\x7d,\x7b\"id\":3,\"name\":\"Product C\",\"price\":200\x7d]\x7d" := by
    decide
  rw [h]
  exact ⟨rfl, rfl, hb⟩

/-- Witness for C1 at a concrete request. -/
theorem products_route_exact_witness :
    (serve { method := "GET", path := "/products", query := "", headers := [], body := "" }).status = 200 ∧
    (serve { method := "GET", path := "/products", query := "", headers := [], body := "" }).contentType = some "application/json" ∧
    (serve { method := "GET", path := "/products", query := "", headers := [], body := "" }).body =
      "\x7b\"products\":[\x7b\"id\":1,\"name\":\"Product A\",\"price\":100\x7d,\x7b\"id\":2,\"name\":\"Product B\",\"price\":150\x7d,\x7b\"id\":3,\"name\":\"Product C\",\"price\":200\x7d]\x7d" :=
  products_route_exact _ rfl rfl

/-- C2: every GET request to `/`, whatever its query string, headers, or
body, gets status 200 and body exactly
`Hello, World from the Dockerize App!`. -/
theorem root_route_hello (req : Request)
    (hm : req.method = "GET") (hp : req.path = "/") :
    (serve req).status = 200 ∧
    (serve req).body = "Hello, World from the Dockerize App!" := by
  have h : serve req = rootHandler req := by
    simp [serve, serveSt, hm, hp]
  rw [h]
  exact ⟨rfl, rfl⟩

/-- Witness for C2 at a concrete request carrying a query string, a
header, and a body. -/
theorem root_route_hello_witness :
    (serve { method := "GET", path := "/", query := "a=1&b=2",
             headers := [("X-Extra", "yes")], body := "ignored" }).status = 200 ∧
    (serve { method := "GET", path := "/", query := "a=1&b=2",
             headers := [("X-Extra", "yes")], body := "ignored" }).body =
      "Hello, World from the Dockerize App!" :=
  root_route_hello _ rfl rfl

/-- C3: a GET request to `/` carrying a malformed JSON body under
`Content-Type: application/json` still gets status 200; the
body-parsing failure does not surface as a non-200 response on this
route, which ignores the body. -/
theorem malformed_body_root_ok (req : Request)
    (hm : req.method = "GET") (hp : req.path = "/")
    (_hct : ("Content-Type", "application/json") ∈ req.headers)
    (_hbad : isJsonText req.body = false) :
    (serve req).status = 200 := by
  have h : serve req = rootHandler req := by
    simp [serve, serveSt, hm, hp]
  rw [h]
  rfl

/-- Witness for C3: a concrete request with a malformed JSON body. -/
theorem malformed_body_root_ok_witness :
    isJsonText "\x7bbad" = false ∧
    (serve { method := "GET", path := "/", query := "",
             headers := [("Content-Type", "application/json")], body := "\x7bbad" }).status = 200 :=
  ⟨by decide, malformed_body_root_ok _ rfl rfl (by decide) (by decide)⟩

/-- C4 counterexample: with `PORT` set to the empty string (a set
variable), the resolved port is the default 5000, not the value of
`PORT`, so the resolved port does not always equal the value of `PORT`
when `PORT` is set. -/
theorem port_when_set_counterexample :
    (startServer (some "")).port = PortValue.num 5000 ∧
    (startServer (some "")).port ≠ PortValue.str "" :=
  ⟨rfl, by decide⟩

/-- C4 amended: the resolved port equals the value of `PORT` when `PORT`
is set to a non-empty string, equals 5000 when `PORT` is absent or set
to the empty string, and the listener is bound on the resolved port. -/
theorem port_resolution (e : Option String) :
    (∀ s, e = some s → s ≠ "" → (startServer e).port = PortValue.str s) ∧
    (e = none ∨ e = some "" → (startServer e).port = PortValue.num 5000) ∧
    (startServer e).listenPort = (startServer e).port := by
  refine ⟨?_, ?_, rfl⟩
  · rintro s rfl hs
    simp [startServer, resolvePORT, hs]
  · rintro (rfl | rfl) <;> rfl

/-- Witness for C4 (amended) at `PORT=8080` and at an absent `PORT`. -/
theorem port_resolution_witness :
    "8080" ≠ "" ∧
    (startServer (some "8080")).port = PortValue.str "8080" ∧
    (startServer none).port = PortValue.num 5000 :=
  ⟨by decide, (port_resolution (some "8080")).1 "8080" rfl (by decide),
   (port_resolution none).2.1 (Or.inl rfl)⟩

/-- C5: a request matching neither `GET /` nor `GET /products` gets the
not-found response: status 404, a 4xx status, never a 5xx status. -/
theorem unmatched_route_404 (req : Request)
    (h1 : ¬(req.method = "GET" ∧ req.path = "/"))
    (h2 : ¬(req.method = "GET" ∧ req.path = "/products")) :
    (serve req).status = 404 ∧ 400 ≤ (serve req).status ∧ (serve req).status < 500 := by
  have h : serve req = notFoundResponse req := by
    unfold serve serveSt
    rw [if_neg h1, if_neg h2]
  rw [h]
  refine ⟨rfl, ?_, ?_⟩
  · show 400 ≤ 404
    decide
  · show 404 < 500
    decide

/-- Witness for C5 at `GET /unknown`. -/
theorem unmatched_route_404_witness :
    (serve { method := "GET", path := "/unknown", query := "", headers := [], body := "" }).status = 404 ∧
    400 ≤ (serve { method := "GET", path := "/unknown", query := "", headers := [], body := "" }).status ∧
    (serve { method := "GET", path := "/unknown", query := "", headers := [], body := "" }).status < 500 :=
  unmatched_route_404 _ (by decide) (by decide)

/-- C6: `GET /products` is idempotent — any sequence of requests to it
yields byte-identical responses (all equal to the fixed products
response) and leaves the server state, and hence the product list
served, unchanged. -/
theorem products_idempotent (st : ServerState) (reqs : List Request)
    (h : ∀ r ∈ reqs, r.method = "GET" ∧ r.path = "/products") :
    runRequests st reqs =
      (reqs.map fun _ =>
        ({ status := 200, contentType := some "application/json",
           body := renderJson (productsJson st.products) } : Response), st) := by
  induction reqs with
  | nil => rfl
  | cons r rs ih =>
    obtain ⟨hm, hp⟩ := h r (List.mem_cons_self r rs)
    have hserve : serveSt st r =
        (({ status := 200, contentType := some "application/json",
            body := renderJson (productsJson st.products) } : Response), st) := by
      simp [serveSt, hm, hp, productsHandler]
    have hrest := ih (fun x hx => h x (List.mem_cons_of_mem r hx))
    simp [runRequests, hserve, hrest]

/-- Witness for C6: two concrete `/products` requests. -/
theorem products_idempotent_witness :
    runRequests initState
      [ { method := "GET", path := "/products", query := "", headers := [], body := "" },
        { method := "GET", path := "/products", query := "x=1", headers := [("A", "b")], body := "" } ] =
      (([ { method := "GET", path := "/products", query := "", headers := [], body := "" },
          { method := "GET", path := "/products", query := "x=1", headers := [("A", "b")], body := "" } ] : List Request).map fun _ =>
        ({ status := 200, contentType := some "application/json",
           body := renderJson (productsJson initState.products) } : Response), initState) :=
  products_idempotent initState _ (by decide)

/-- C7: the product collection is a fixed ordered sequence of exactly
three records; every record has a positive id unique within the list, a
non-empty name, and a non-negative price; and no sequence of requests
mutates the server state holding it. -/
theorem products_list_invariants :
    products.length = 3 ∧
    (∀ p ∈ products, 0 < p.id ∧ p.name ≠ "" ∧ 0 ≤ p.price) ∧
    (products.map Product.id).Nodup ∧
    (∀ (st : ServerState) (reqs : List Request), (runRequests st reqs).2 = st) :=
  ⟨rfl, by decide, by decide, runRequests_state⟩

/-- Witness for C7: the invariants instantiated at the first record and
at a concrete request sequence. -/
theorem products_list_invariants_witness :
    0 < (Product.mk 1 "Product A" 100).id ∧
    (Product.mk 1 "Product A" 100).name ≠ "" ∧
    (0 : Int) ≤ (Product.mk 1 "Product A" 100).price ∧
    (runRequests initState
      [ { method := "GET", path := "/unknown", query := "", headers := [], body := "" } ]).2 = initState :=
  ⟨(products_list_invariants.2.1 (Product.mk 1 "Product A" 100) (by decide)).1,
   (products_list_invariants.2.1 (Product.mk 1 "Product A" 100) (by decide)).2.1,
   (products_list_invariants.2.1 (Product.mk 1 "Product A" 100) (by decide)).2.2,
   products_list_invariants.2.2.2 initState _⟩

/-- C8: a bind failure is fatal — the process terminates with the
non-zero exit status 1 and the error message is surfaced on the
standard error stream; the service does not continue listening. -/
theorem bind_failure_fatal (p : PortValue) (msg : String) :
    listenResult p (some msg) = ListenOutcome.fatal 1 msg ∧
    (1 : Nat) ≠ 0 ∧
    ∀ q, listenResult p (some msg) ≠ ListenOutcome.listening q :=
  ⟨rfl, by decide, fun _ h => ListenOutcome.noConfusion h⟩

/-- C9: a `PORT` set to the empty string (a falsy value) resolves to the
default 5000, and any non-empty `PORT` string is used verbatim, with no
integer parsing or range validation. -/
theorem port_empty_string_default :
    (startServer (some "")).port = PortValue.num 5000 ∧
    ∀ s : String, s ≠ "" → (startServer (some s)).port = PortValue.str s := by
  refine ⟨rfl, ?_⟩
  intro s hs
  simp [startServer, resolvePORT, hs]

/-- Witness for C9 at a non-numeric `PORT` value, showing the value is
taken verbatim without integer parsing. -/
theorem port_empty_string_default_witness :
    "not-a-number" ≠ "" ∧
    (startServer (some "not-a-number")).port = PortValue.str "not-a-number" :=
  ⟨by decide, port_empty_string_default.2 "not-a-number" (by decide)⟩

/-- C10: the two route handlers are deterministic and read nothing from
the request — any two requests dispatched to the same route receive
identical responses — and handling a request writes no server state. -/
theorem handlers_deterministic (r1 r2 : Request) (rt : RouteId)
    (h1 : routeOf r1 = some rt) (h2 : routeOf r2 = some rt) :
    serve r1 = serve r2 ∧
    ∀ st : ServerState, (serveSt st r1).2 = st ∧ (serveSt st r2).2 = st := by
  refine ⟨?_, fun st => ⟨serveSt_state st r1, serveSt_state st r2⟩⟩
  cases rt with
  | rootRoute =>
    obtain ⟨m1, p1⟩ := routeOf_root r1 h1
    obtain ⟨m2, p2⟩ := routeOf_root r2 h2
    have e1 : serve r1 = rootHandler r1 := by simp [serve, serveSt, m1, p1]
    have e2 : serve r2 = rootHandler r2 := by simp [serve, serveSt, m2, p2]
    rw [e1, e2]
    rfl
  | productsRoute =>
    obtain ⟨m1, p1⟩ := routeOf_products r1 h1
    obtain ⟨m2, p2⟩ := routeOf_products r2 h2
    have e1 : serve r1 = productsHandler initState r1 := by simp [serve, serveSt, m1, p1]
    have e2 : serve r2 = productsHandler initState r2 := by simp [serve, serveSt, m2, p2]
    rw [e1, e2]
    rfl

/-- Witness for C10: two different concrete requests to the root route
receive identical responses and leave any state unchanged. -/
theorem handlers_deterministic_witness :
    routeOf { method := "GET", path := "/", query := "a=1", headers := [("H", "v")], body := "b" } =
      some RouteId.rootRoute ∧
    routeOf { method := "GET", path := "/", query := "", headers := [], body := "" } =
      some RouteId.rootRoute ∧
    (serve { method := "GET", path := "/", query := "a=1", headers := [("H", "v")], body := "b" } =
      serve { method := "GET", path := "/", query := "", headers := [], body := "" } ∧
     ∀ st : ServerState,
       (serveSt st { method := "GET", path := "/", query := "a=1", headers := [("H", "v")], body := "b" }).2 = st ∧
       (serveSt st { method := "GET", path := "/", query := "", headers := [], body := "" }).2 = st) :=
  ⟨by decide, by decide,
   handlers_deterministic _ _ RouteId.rootRoute (by decide) (by decide)⟩
